import Mathlib

/-!
Shallow embedding of the data merge / filter / aggregation pipeline and the
embed-tag format classifier of `src/app.py`, together with proofs of the
specification claims about them.

Conventions of the embedding:
* pandas cell values are modelled by `CellVal`; the float `NaN` produced by
  `pd.to_numeric(errors='coerce')` is modelled as `Option.none`; `pd.merge`
  factorizes the two frames' key columns through a shared hash table whose
  NA labels form one group, so a `NaN` join key matches the other frame's
  `NaN` keys (and no numeric key);
* numbers are modelled exactly by `ℚ` (every concrete value appearing in the
  claims — 42, 42.0, "42" — is exactly representable);
* a Python function that catches every exception and returns `None` is
  modelled as an outer function into `Option` wrapping an inner function
  into `Except String`, the error text standing for the raised exception.
-/

/-- A pandas cell as seen by the pipeline: missing (`None`/`NaN`), an int,
a float (modelled exactly as a rational), or a string. -/
inductive CellVal where
  | vnone : CellVal
  | vint : Int → CellVal
  | vfloat : ℚ → CellVal
  | vstr : String → CellVal
deriving DecidableEq

/-- `true` iff `c` is an ASCII decimal digit. -/
def isDigitChar (c : Char) : Bool := 48 ≤ c.toNat && c.toNat ≤ 57

/-- All characters are ASCII decimal digits. -/
def allDigits (cs : List Char) : Bool := cs.all isDigitChar

/-- Decimal value of a digit string (characters assumed to be digits). -/
def digitsToNat (cs : List Char) : Nat := cs.foldl (fun a c => a * 10 + (c.toNat - 48)) 0

/-- Parse an unsigned decimal numeral, with an optional single decimal
point, to an exact rational (`"42"`, `"42."`, `".5"`, `"4.25"`). -/
def parseUnsigned (cs : List Char) : Option ℚ :=
  match cs.splitOn '.' with
  | [ip] =>
      if !ip.isEmpty && allDigits ip then some (digitsToNat ip : ℚ) else none
  | [ip, fp] =>
      if (!ip.isEmpty || !fp.isEmpty) && allDigits ip && allDigits fp then
        some ((digitsToNat ip : ℚ) + (digitsToNat fp : ℚ) / ((10 : ℚ) ^ fp.length))
      else none
  | _ => none

/-- Parse a signed decimal numeral; `none` on any non-numeric string.
Models how `pd.to_numeric(errors='coerce')` treats a string cell (strings it
cannot parse become `NaN`, modelled as `none`). -/
def parseDecimal (s : String) : Option ℚ :=
  match s.data with
  | [] => none
  | '-' :: rest => (parseUnsigned rest).map (fun q => -q)
  | '+' :: rest => parseUnsigned rest
  | cs => parseUnsigned cs

/-- `pd.to_numeric(value, errors='coerce')` on one cell, i.e. the key
normalization applied to the `Business Id` columns of both tables in
`get_google_sheet_data` (line 129) and `merge_data` (lines 182-183):
numbers pass through, numeric strings parse, `None`/`NaN`/non-numeric
strings coerce to `NaN` (modelled `none`). -/
def normalize_key : CellVal → Option ℚ
  | .vnone => none
  | .vint n => some (n : ℚ)
  | .vfloat q => some q
  | .vstr s => parseDecimal s

/-- One row of an uploaded performance table (the columns the pipeline
reads: `Business Id`, `Page Url`, `Video Views`). -/
structure PerfRow where
  businessId : CellVal
  pageUrl : String
  videoViews : Nat
deriving DecidableEq

/-- One row of the Google-Sheet reference registry (the columns
`merge_data` selects). -/
structure RefRow where
  businessId : CellVal
  accountName : String
  industry : String
  territory : String
  channelName : String
deriving DecidableEq

/-- One row of the result of the left merge in `merge_data` (line 197):
performance fields plus enrichment fields that are `none` (pandas `NaN`)
when the row had no reference match. -/
structure MergedRow where
  businessId : Option ℚ
  pageUrl : String
  videoViews : Nat
  accountName : Option String
  industry : Option String
  territory : Option String
  channelName : Option String
deriving DecidableEq

/-- Join-key equality as `pd.merge` sees it after normalization: numeric
keys compare by value, and the two frames' `NaN` keys (here `none`) are
factorized into one shared NA group, so a `NaN` key matches the other
side's `NaN` keys — but never a numeric key. -/
def keyEq (a b : Option ℚ) : Bool :=
  match a, b with
  | some x, some y => x == y
  | none, none => true
  | _, _ => false

/-- The pandas left outer merge `main_df.merge(sheet_df[cols], on='Business
Id', how='left')` of `merge_data` lines 197-201, with both key columns
first passed through `pd.to_numeric(errors='coerce')` (lines 182-183):
each performance row yields one output row per matching reference row
(fan-out on duplicate keys), or a single output row with `NaN` enrichment
fields when no reference row matches. Because `NaN` matches `NaN`, a
`NaN`-keyed performance row fans out over `NaN`-keyed reference rows and
is enriched from them; it is retained with null enrichment only when the
reference table has no `NaN` key either. -/
def mergeLeftRow (ref : List RefRow) (p : PerfRow) : List MergedRow :=
  let k := normalize_key p.businessId
  let hits := ref.filter (fun r => keyEq k (normalize_key r.businessId))
  if hits.isEmpty then
    [⟨k, p.pageUrl, p.videoViews, none, none, none, none⟩]
  else
    hits.map (fun r =>
      ⟨k, p.pageUrl, p.videoViews, some r.accountName, some r.industry,
        some r.territory, some r.channelName⟩)

/-- The left outer merge over all performance rows. -/
def mergeLeft (perf : List PerfRow) (ref : List RefRow) : List MergedRow :=
  perf.flatMap (mergeLeftRow ref)

/-- The static `COUNTRY_TO_REGION_MAPPING` dictionary of `app.py`
lines 32-88. -/
def COUNTRY_TO_REGION_MAPPING : List (String × List String) :=
  [("Americas", ["Americas"]),
   ("Europe", ["Europe"]),
   ("Japan", ["Japan"]),
   ("China/ANZ", ["China/ANZ"]),
   ("SEA/SA/MEA", ["SEA/SA/MEA"]),
   ("United States", ["Americas"]),
   ("Brazil", ["Americas"]),
   ("Mexico", ["Americas"]),
   ("Canada", ["Americas"]),
   ("Colombia", ["Americas"]),
   ("Chile", ["Americas"]),
   ("Germany", ["Europe"]),
   ("France", ["Europe"]),
   ("United Kingdom", ["Europe"]),
   ("Italy", ["Europe"]),
   ("Spain", ["Europe"]),
   ("Poland", ["Europe"]),
   ("Ukraine", ["Europe"]),
   ("Netherlands", ["Europe"]),
   ("Belgium", ["Europe"]),
   ("Sweden", ["Europe"]),
   ("Austria", ["Europe"]),
   ("Switzerland", ["Europe"]),
   ("Denmark", ["Europe"]),
   ("Norway", ["Europe"]),
   ("Ireland", ["Europe"]),
   ("Lithuania", ["Europe"]),
   ("China", ["China/ANZ"]),
   ("Australia", ["China/ANZ"]),
   ("New Zealand", ["China/ANZ"]),
   ("Hong Kong", ["China/ANZ"]),
   ("Taiwan", ["China/ANZ"]),
   ("India", ["SEA/SA/MEA"]),
   ("Pakistan", ["SEA/SA/MEA"]),
   ("Thailand", ["SEA/SA/MEA"]),
   ("Malaysia", ["SEA/SA/MEA"]),
   ("Singapore", ["SEA/SA/MEA"]),
   ("South Korea", ["SEA/SA/MEA"]),
   ("Egypt", ["SEA/SA/MEA"]),
   ("Turkey", ["SEA/SA/MEA"]),
   ("South Africa", ["SEA/SA/MEA"]),
   ("Jordan", ["SEA/SA/MEA"]),
   ("United Arab Emirates", ["SEA/SA/MEA"]),
   ("Israel", ["SEA/SA/MEA"]),
   ("Qatar", ["SEA/SA/MEA"])]

/-- `get_country_regions` (lines 143-159): dictionary lookup, with a miss
returning the input unchanged as a singleton. -/
def get_country_regions (country : String) : List String :=
  match COUNTRY_TO_REGION_MAPPING.lookup country with
  | some rs => rs
  | none => [country]

/-- The comma-splitting of a multi-valued industry filter string
(`merge_data` line 216): split on commas, strip whitespace, drop empties. -/
def split_industries (industry_filter : String) : List String :=
  ((industry_filter.splitOn ",").map String.trim).filter (fun s => s != "")

/-- The industry filter of `merge_data` lines 213-225, applied to merged
rows: active when the filter string is truthy and not `"none"`; keeps rows
whose `Account: Industry` is one of the named industries (`isin`; a `NaN`
industry — an unmatched row — is never a member). -/
def industry_filter_apply (industry_filter : String) (rows : List MergedRow) :
    List MergedRow :=
  if industry_filter != "" && industry_filter != "none" then
    let industries := split_industries industry_filter
    if industries.isEmpty then rows
    else rows.filter (fun m =>
      match m.industry with
      | some s => industries.contains s
      | none => false)
  else rows

/-- The country filter of `merge_data` lines 227-234: active when the
country is not `"none"`; resolves the country to its region list and keeps
rows whose `Account: Owner Territory` is in that list (`isin`). -/
def country_filter_apply (country : String) (rows : List MergedRow) :
    List MergedRow :=
  if country != "none" then
    let regions := get_country_regions country
    rows.filter (fun m =>
      match m.territory with
      | some s => regions.contains s
      | none => false)
  else rows

/-- ASCII lower-casing of one character (how `re.IGNORECASE` and
`urlparse`'s hostname lower-casing are modelled). -/
def asciiLower (c : Char) : Char :=
  if 65 ≤ c.toNat && c.toNat ≤ 90 then Char.ofNat (c.toNat + 32) else c

/-- Take the host part: characters up to the first `/`, `:`, `?` or `#`. -/
def takeHost : List Char → List Char
  | [] => []
  | c :: cs => if c == '/' || c == ':' || c == '?' || c == '#' then [] else c :: takeHost cs

/-- `urlparse(x).hostname if x else ''` (`merge_data` line 270), simplified
to absolute URLs: the text between `"://"` and the next delimiter,
lower-cased; the empty string models both `''` and a schemeless URL's
`None` hostname. -/
def extract_hostname (url : String) : String :=
  if url.isEmpty then ""
  else
    match url.splitOn "://" with
    | _ :: rest :: _ => String.mk ((takeHost rest.data).map asciiLower)
    | _ => ""

/-- One row of the shaped result table built at `merge_data` lines 238-272
(columns チャンネル名, 業種, 国, URL, `_views`, ドメイン), after
`fillna('')` replaced every `NaN` by the empty string. -/
structure ResultRow where
  channelName : String
  industry : String
  country : String
  url : String
  views : Nat
  domain : String
deriving DecidableEq

/-- The result table of `merge_data`; `hasChannelCol` records whether the
チャンネル名 column exists (it does iff the sheet had a `Channel Name`
column, lines 250-251). -/
structure ResultTable where
  hasChannelCol : Bool
  rows : List ResultRow
deriving DecidableEq

/-- The uploaded main table as a frame: column-presence flag for the
required `Business Id` column plus the typed rows. -/
structure MainDF where
  hasBusinessId : Bool
  rows : List PerfRow
deriving DecidableEq

/-- The reference sheet as a frame: presence flags for the columns
`merge_data` selects (lines 191-195) plus the typed rows. -/
structure SheetDF where
  hasBusinessId : Bool
  hasAccountName : Bool
  hasIndustry : Bool
  hasTerritory : Bool
  hasChannelName : Bool
  rows : List RefRow
deriving DecidableEq

/-- `true` iff some column `merge_data` unconditionally reads is missing
from either frame (`main_df['Business Id']`, lines 176/182;
`sheet_df[available_cols]`, lines 178/183/191-198). -/
def required_column_missing (main : MainDF) (sheet : SheetDF) : Bool :=
  !main.hasBusinessId || !sheet.hasBusinessId || !sheet.hasAccountName ||
    !sheet.hasIndustry || !sheet.hasTerritory

/-- The body of `merge_data` (lines 161-275) up to the point where an
exception can no longer occur: select the main table by `case_type`,
fail with a `KeyError` if a required column is absent (the first column
access that would raise in the source), left-merge on the normalized key,
apply the industry and country filters, then shape the result columns,
`fillna('')`, and derive the ドメイン column. -/
def merge_data_inner (video live : MainDF) (sheet : SheetDF)
    (case_type industry_filter country : String) : Except String ResultTable :=
  let main := if case_type == "short_video" then video else live
  if !main.hasBusinessId then .error "KeyError: Business Id"
  else if !sheet.hasBusinessId then .error "KeyError: Business Id"
  else if !sheet.hasAccountName then .error "KeyError: Account: Account Name"
  else if !sheet.hasIndustry then .error "KeyError: Account: Industry"
  else if !sheet.hasTerritory then .error "KeyError: Account: Owner Territory"
  else
    let merged := mergeLeft main.rows sheet.rows
    let merged := industry_filter_apply industry_filter merged
    let merged := country_filter_apply country merged
    .ok { hasChannelCol := sheet.hasChannelName
          rows := merged.map (fun m =>
            { channelName := m.channelName.getD ""
              industry := m.industry.getD ""
              country := m.territory.getD ""
              url := m.pageUrl
              views := m.videoViews
              domain := extract_hostname m.pageUrl }) }

/-- `merge_data` as its callers see it: the whole body sits in a
`try/except Exception` that logs and returns `None` (lines 276-279), so
every internal error — a missing required column included — surfaces as
`None`, never as a raised error. -/
def merge_data (video live : MainDF) (sheet : SheetDF)
    (case_type industry_filter country : String) : Option ResultTable :=
  match merge_data_inner video live sheet case_type industry_filter country with
  | .ok r => some r
  | .error _ => none

/-- Strict lexicographic order on character lists by code point (how
Python / pandas compare the strings that `groupby(sort=True)` sorts). -/
def charListLt : List Char → List Char → Bool
  | [], [] => false
  | [], _ :: _ => true
  | _ :: _, [] => false
  | a :: as, b :: bs =>
      if a.toNat < b.toNat then true
      else if b.toNat < a.toNat then false
      else charListLt as bs

/-- Strict string order by code point. -/
def strLtB (a b : String) : Bool := charListLt a.data b.data

/-- Insert into an ascending list (used to model `groupby`'s sorting of
group keys). -/
def insertAsc (s : String) : List String → List String
  | [] => [s]
  | t :: ts => if strLtB s t then s :: t :: ts else t :: insertAsc s ts

/-- Insertion sort ascending by `strLtB`. -/
def sortAsc : List String → List String
  | [] => []
  | s :: ss => insertAsc s (sortAsc ss)

/-- The distinct values of `key` over `rows`, in first-encounter order. -/
def encounterKeys (key : ResultRow → String) (rows : List ResultRow) : List String :=
  rows.foldl (fun acc r => if acc.contains (key r) then acc else acc ++ [key r]) []

/-- One row of the `channel_summary` frame produced by
`result_df.groupby(group_column).agg(...)` (lines 294-306): the group key,
`first`-aggregated 業種 / 国, the summed `_views` and the `URL` count. -/
structure ChannelGroup where
  key : String
  industry : String
  country : String
  totalViews : Nat
  urlCount : Nat
deriving DecidableEq

/-- The aggregate row for one group key (the `agg` dictionary of lines
294-299: 業種 `first`, 国 `first`, `_views` `sum`, `URL` `count`). -/
def mkGroup (key : ResultRow → String) (rows : List ResultRow) (k : String) :
    ChannelGroup :=
  let grp := rows.filter (fun r => key r == k)
  { key := k
    industry := ((grp.head?).map (fun r => r.industry)).getD ""
    country := ((grp.head?).map (fun r => r.country)).getD ""
    totalViews := (grp.map (fun r => r.views)).sum
    urlCount := grp.length }

/-- Descending insertion by `totalViews`: an element is placed before the
first strictly-smaller entry, after any equal one. -/
def insertDescViews (g : ChannelGroup) : List ChannelGroup → List ChannelGroup
  | [] => [g]
  | h :: t => if h.totalViews ≤ g.totalViews then g :: h :: t else h :: insertDescViews g t

/-- Executable model of `sort_values('_views', ascending=False)`
(line 309): insertion sort, descending by `totalViews`. numpy's default
`quicksort` (introsort) coincides with this stable insertion sort below
its 16-element threshold — which covers every concrete input evaluated in
this file — but may permute equal elements above it, so only the
descending-views property of the output is asserted as a guarantee of the
program; the model's tie order is relied on solely to evaluate small
concrete inputs. -/
def sortDescViews : List ChannelGroup → List ChannelGroup
  | [] => []
  | g :: gs => insertDescViews g (sortDescViews gs)

/-- The pagination metadata and group lists returned by
`group_by_domain_and_paginate` (lines 330-338); the per-URL detail rows
(`detailed_data`) are orthogonal to every claim and are not modelled. -/
structure PaginationResult where
  channel_summary : List ChannelGroup
  paginated_channels : List ChannelGroup
  total_domains : Nat
  current_page : Nat
  page_size : Nat
  has_next : Bool
deriving DecidableEq

/-- The grouping column chosen at lines 286-291: チャンネル名 whenever that
column exists in the table, ドメイン only when it does not. The choice
looks only at column presence, never at the rows' values. -/
def group_column (t : ResultTable) : ResultRow → String :=
  fun r => if t.hasChannelCol then r.channelName else r.domain

/-- `group_by_domain_and_paginate` (lines 281-338): pick the group column
by column presence, group and aggregate (`groupby(sort=True)` emits groups
in ascending key order), rank by summed views descending
(`sort_values('_views', ascending=False)`), then paginate the ranked group
list with `iloc[(page-1)*size : page*size]` and
`has_next = end_idx < len(channel_summary)`. -/
def group_by_domain_and_paginate (t : ResultTable) (page page_size : Nat) :
    PaginationResult :=
  let key := group_column t
  let keys := sortAsc (encounterKeys key t.rows)
  let summary := sortDescViews (keys.map (mkGroup key t.rows))
  let start := (page - 1) * page_size
  let paginated := (summary.drop start).take page_size
  { channel_summary := summary
    paginated_channels := paginated
    total_domains := summary.length
    current_page := page
    page_size := page_size
    has_next := start + page_size < summary.length }

/-- A piece of one of the detection regexes of `detect_firework_format`
(lines 422-455): a single character constrained by a predicate, a greedy
`[^...]*`-style star, or the negative lookahead
`(? ! [^>]*(?:mode=|style=|thumbnail_style=))` of the Story Block rule. -/
inductive Pat where
  | chrP (p : Char → Bool)
  | star (p : Char → Bool)
  | noAttr

/-- Literal text as a pattern (one `chrP` per character). -/
def litP (s : String) : List Pat := s.data.map (fun c => Pat.chrP (fun d => d == c))

/-- Does `[^>]*(?:mode=|style=|thumbnail_style=)` match a prefix of `l`,
i.e. does one of the three attribute literals occur before the first `>`? -/
def beforeGtHasAttr : List Char → Bool
  | [] => false
  | c :: cs =>
      if ("mode=".data).isPrefixOf (c :: cs) || ("style=".data).isPrefixOf (c :: cs) ||
          ("thumbnail_style=".data).isPrefixOf (c :: cs) then true
      else if c == '>' then false
      else beforeGtHasAttr cs

/-- Backtracking for a `[^...]*` star: try the continuation after every
prefix of characters satisfying `p`. -/
def matchStar (p : Char → Bool) (cont : List Char → Bool) : List Char → Bool
  | [] => cont []
  | c :: rest => cont (c :: rest) || (p c && matchStar p cont rest)

/-- Match a pattern sequence against a prefix of `l` (with full
backtracking for the greedy stars), as `re` does at one start position. -/
def matchSeq : List Pat → List Char → Bool
  | [], _ => true
  | .chrP _ :: _, [] => false
  | .chrP p :: ps, c :: rest => p c && matchSeq ps rest
  | .star p :: ps, l => matchStar p (matchSeq ps) l
  | .noAttr :: ps, l => !beforeGtHasAttr l && matchSeq ps l

/-- `re.search`: try `matchSeq` at every start position. -/
def searchP (ps : List Pat) : List Char → Bool
  | [] => matchSeq ps []
  | c :: rest => matchSeq ps (c :: rest) || searchP ps rest

/-- Lower-cased character list of a string (the model of matching with
`re.IGNORECASE`: patterns are lower-case, the document is lower-cased). -/
def lowerChars (s : String) : List Char := s.data.map asciiLower

/-- A character other than `>` (the `[^>]` class). -/
def notGt (c : Char) : Bool := !(c == '>')

/-- A quote character (the `["\x27]` class); `39` is the apostrophe. -/
def quoteChar (c : Char) : Bool := c == '"' || c.toNat == 39

/-- A character other than a quote (the `[^"\x27]` class). -/
def notQuote (c : Char) : Bool := !(quoteChar c)

/-- A `[\w-]` character: letter, digit, underscore or hyphen. -/
def wordDash (c : Char) : Bool := c.isAlphanum || c == '_' || c == '-'

/-- `<fw-embed-feed[^>]*style=["..][^".]*thumbnail[^".]*["..][^>]*>`. -/
def pHorizontalCarousel : List Pat :=
  litP "<fw-embed-feed" ++ [.star notGt] ++ litP "style=" ++
    [.chrP quoteChar, .star notQuote] ++ litP "thumbnail" ++
    [.star notQuote, .chrP quoteChar, .star notGt] ++ litP ">"

/-- `<fw-embed-feed[^>]*thumbnail_style=["..]dynamic["..][^>]*>`. -/
def pDynamicCarousel : List Pat :=
  litP "<fw-embed-feed" ++ [.star notGt] ++ litP "thumbnail_style=" ++
    [.chrP quoteChar] ++ litP "dynamic" ++ [.chrP quoteChar, .star notGt] ++ litP ">"

/-- `<fw-embed-feed[^>]*mode=["..]grid["..][^>]*>`. -/
def pGrid : List Pat :=
  litP "<fw-embed-feed" ++ [.star notGt] ++ litP "mode=" ++
    [.chrP quoteChar] ++ litP "grid" ++ [.chrP quoteChar, .star notGt] ++ litP ">"

/-- `<fw-embed-feed[^>]*mode=["..]row["..][^>]*>`. -/
def pCarouselRow : List Pat :=
  litP "<fw-embed-feed" ++ [.star notGt] ++ litP "mode=" ++
    [.chrP quoteChar] ++ litP "row" ++ [.chrP quoteChar, .star notGt] ++ litP ">"

/-- `<fw-embed-feed` with the no-attribute negative lookahead, `[^>]*>`. -/
def pStoryBlock : List Pat :=
  litP "<fw-embed-feed" ++ [.noAttr, .star notGt] ++ litP ">"

/-- `<fw-stories[^>]*thumbnail_shape=["..]circle["..][^>]*>`. -/
def pCircleStories : List Pat :=
  litP "<fw-stories" ++ [.star notGt] ++ litP "thumbnail_shape=" ++
    [.chrP quoteChar] ++ litP "circle" ++ [.chrP quoteChar, .star notGt] ++ litP ">"

/-- `<fw-stories[^>]*thumbnail_shape=["..]rectangle["..][^>]*>`. -/
def pVerticalStories : List Pat :=
  litP "<fw-stories" ++ [.star notGt] ++ litP "thumbnail_shape=" ++
    [.chrP quoteChar] ++ litP "rectangle" ++ [.chrP quoteChar, .star notGt] ++ litP ">"

/-- `<fw-storyblock[^>]*mode=["..]pinned["..][^>]*>`. -/
def pFloatingPlayer : List Pat :=
  litP "<fw-storyblock" ++ [.star notGt] ++ litP "mode=" ++
    [.chrP quoteChar] ++ litP "pinned" ++ [.chrP quoteChar, .star notGt] ++ litP ">"

/-- `<fw-player[^>]*>`. -/
def pHorizontalPlayer : List Pat := litP "<fw-player" ++ [.star notGt] ++ litP ">"

/-- `<fw-herounit[^>]*>`. -/
def pHeroUnit : List Pat := litP "<fw-herounit" ++ [.star notGt] ++ litP ">"

/-- `<fw-player-deck[^>]*>`. -/
def pPlayerDeck : List Pat := litP "<fw-player-deck" ++ [.star notGt] ++ litP ">"

/-- `<fw-[\w-]+`, the generic marker-prefix test (lines 464 and 479). -/
def pGenericFw : List Pat := litP "<fw-" ++ [.chrP wordDash, .star wordDash]

/-- The ordered `format_patterns` list of `detect_firework_format`
(lines 422-455). -/
def format_patterns : List (List Pat × String) :=
  [(pHorizontalCarousel, "Horizontal Carousel"),
   (pDynamicCarousel, "Dynamic Carousel"),
   (pGrid, "Grid"),
   (pCarouselRow, "Carousel"),
   (pStoryBlock, "Story Block"),
   (pCircleStories, "Circle Stories"),
   (pVerticalStories, "Vertical Stories"),
   (pFloatingPlayer, "Floating Player"),
   (pHorizontalPlayer, "Horizontal Player"),
   (pHeroUnit, "Hero Unit"),
   (pPlayerDeck, "Player Deck")]

/-- `detect_firework_format` (lines 411-468): empty input is `'Unknown'`;
otherwise the patterns are tried in order and the first match's format
name is returned; with no match the function returns `'Unknown'` whether
or not the generic `<fw-` prefix is present (both fall-through branches,
lines 463-468, return `'Unknown'`). -/
def detect_firework_format (html : String) : String :=
  if html.isEmpty then "Unknown"
  else
    let l := lowerChars html
    match format_patterns.find? (fun pr => searchP pr.1 l) with
    | some pr => pr.2
    | none => "Unknown"

/-- The outcome of `requests.get(url, timeout=10)`: the page text, or a
raised exception (timeout, DNS/TLS failure, ...). `requests` does not
raise on a non-2xx status, so any reply with a body is an `ok`. -/
abbrev FetchOutcome := Except String String

/-- `check_fw_tag_in_url` (lines 470-489) as a function of the fetch
outcome for the URL: on success, test the generic `<fw-[\w-]+` marker and
classify the format only when the marker is present; on any raised
exception the `except` branch returns `(False, None, 'Unknown')`. The
function is total — it never propagates an exception. -/
def check_fw_tag_in_url (fetched : FetchOutcome) : Bool × Option String × String :=
  match fetched with
  | .error _ => (false, none, "Unknown")
  | .ok html =>
      let has_fw_tag := searchP pGenericFw (lowerChars html)
      let format_name := if has_fw_tag then detect_firework_format html else "Unknown"
      (has_fw_tag, some html, format_name)

/-- `check_url_wrapper` (lines 607-614): run the per-URL check and pair
the result with the URL; its own `except` branch returns
`(url, False, 'Unknown')`, unreachable here since `check_fw_tag_in_url`
is already total. -/
def check_url_wrapper (fetch : String → FetchOutcome) (url : String) :
    String × Bool × String :=
  let r := check_fw_tag_in_url (fetch url)
  (url, r.1, r.2.2)

/-- The result-accumulation of the `ThreadPoolExecutor` loop (lines
617-632) with the fetch outcomes fixed by the oracle `fetch`: every
submitted URL contributes one `(url, (flag, format))` entry to the two
result dictionaries, independent of completion order. -/
def check_urls (fetch : String → FetchOutcome) (urls : List String) :
    List (String × Bool × String) :=
  urls.map (fun u => check_url_wrapper fetch u)

/-- Example inputs for the left-outer-merge claim: performance rows with
keys 1, 2, 3. -/
def perfC1 : List PerfRow :=
  [⟨.vint 1, "u1", 10⟩, ⟨.vint 2, "u2", 20⟩, ⟨.vint 3, "u3", 30⟩]

/-- Reference rows with keys 2 and 3 (key 1 has no match). -/
def refC1 : List RefRow :=
  [⟨.vint 2, "A2", "I2", "T2", "C2"⟩, ⟨.vint 3, "A3", "I3", "T3", "C3"⟩]

/-- A main table whose `Business Id` column is absent. -/
def mainNoKeyC2 : MainDF := ⟨false, []⟩

/-- A reference sheet with all required columns present. -/
def sheetAllColsC2 : SheetDF := ⟨true, true, true, true, true, []⟩

/-- A table that has the channel-name column but one record with a blank
channel name: the claim predicts hostname grouping for the whole set,
the code groups by channel name anyway. -/
def tBlankC3 : ResultTable :=
  ⟨true, [⟨"", "", "", "http://x.com/a", 1, "x.com"⟩,
          ⟨"Chan", "", "", "http://y.com/b", 2, "y.com"⟩]⟩

/-- Two groups with equal total views, encountered as "B" then "A":
`groupby(sort=True)` re-orders them alphabetically before the ranking
sort, so the tie comes out "A" then "B". -/
def tTieC4 : ResultTable :=
  ⟨true, [⟨"B", "", "", "b", 10, ""⟩, ⟨"A", "", "", "a", 10, ""⟩]⟩

/-- 23 groups (channels `a` .. `w`, strictly decreasing views) for the
pagination example of the claim. -/
def t23C5 : ResultTable :=
  ⟨true, (List.range 23).map (fun i =>
    ⟨String.mk [Char.ofNat (97 + i)], "", "", "", 1000 - i, ""⟩)⟩

/-- A fetch oracle under which the URL `"bad"` raises and every other URL
returns an unremarkable page. -/
def fetchC8 : String → FetchOutcome :=
  fun u => if u = "bad" then .error "timeout" else .ok "<div></div>"

/-- C9: Key normalization maps numeric, numeric-string, null/blank and
non-numeric inputs without raising: `normalize_key "42" = 42`,
`normalize_key 42 = 42`, `normalize_key 42.0 = 42`,
`normalize_key None = null` and `normalize_key "N/A" = null`, so equal
keys of different lexical forms compare equal after normalization. -/
theorem normalize_key_values :
    normalize_key (.vstr "42") = some 42 ∧
    normalize_key (.vint 42) = some 42 ∧
    normalize_key (.vfloat 42) = some 42 ∧
    normalize_key .vnone = none ∧
    normalize_key (.vstr "N/A") = none := by
  decide

/-- C10: whenever `check_fw_tag_in_url` reports `has_fw_tag = false`, the
format it reports is exactly `"Unknown"`; a specific format name only ever
accompanies `has_fw_tag = true`. -/
theorem check_fw_flag_false_format_unknown (fetched : FetchOutcome)
    (h : (check_fw_tag_in_url fetched).1 = false) :
    (check_fw_tag_in_url fetched).2.2 = "Unknown" := by
  cases fetched with
  | error e => rfl
  | ok html =>
      simp only [check_fw_tag_in_url] at h ⊢
      rw [h]
      simp

/-- Witness for C10 at a concrete failed fetch. -/
theorem check_fw_flag_false_format_unknown_witness :
    (check_fw_tag_in_url (.error "timeout")).1 = false ∧
    (check_fw_tag_in_url (.error "timeout")).2.2 = "Unknown" :=
  ⟨rfl, check_fw_flag_false_format_unknown (.error "timeout") rfl⟩

/-- C8: per-URL fetch failures are absorbed: every submitted URL yields a
result entry, and a URL whose fetch raised is recorded as
`(False, 'Unknown')`; `check_urls` is a total function, so no per-URL
failure can abort the batch. -/
theorem check_urls_fault_isolation (fetch : String → FetchOutcome)
    (urls : List String) (url : String) (h : url ∈ urls) :
    ∃ entry ∈ check_urls fetch urls, entry.1 = url ∧
      (∀ e, fetch url = .error e → entry.2 = (false, "Unknown")) := by
  refine ⟨check_url_wrapper fetch url, List.mem_map_of_mem _ h, rfl, ?_⟩
  intro e he
  simp [check_url_wrapper, check_fw_tag_in_url, he]

/-- Witness for C8: a two-URL batch where `"bad"` times out. -/
theorem check_urls_fault_isolation_witness :
    "bad" ∈ ["good", "bad"] ∧
    ∃ entry ∈ check_urls fetchC8 ["good", "bad"], entry.1 = "bad" ∧
      (∀ e, fetchC8 "bad" = .error e → entry.2 = (false, "Unknown")) :=
  ⟨by decide, check_urls_fault_isolation fetchC8 ["good", "bad"] "bad" (by decide)⟩

/-- C6: the industry filter and the country (region) filter commute: for
every merged record set, industry filter string and country choice,
applying them in either order gives the same final record set. -/
theorem filter_commute (rows : List MergedRow) (industry_filter country : String) :
    country_filter_apply country (industry_filter_apply industry_filter rows) =
      industry_filter_apply industry_filter (country_filter_apply country rows) := by
  unfold industry_filter_apply country_filter_apply
  cases h1 : (industry_filter != "" && industry_filter != "none") <;>
    cases h2 : (country != "none") <;>
      simp only [if_true, if_false, Bool.false_eq_true]
  cases h3 : (split_industries industry_filter).isEmpty <;>
    simp only [if_true, if_false, Bool.false_eq_true]
  rw [List.filter_filter, List.filter_filter]
  congr 1
  funext m
  rw [Bool.and_comm]

/-- C5: pagination over the ranked group list: the returned page is
exactly the `page_size`-sized window after skipping `(page-1)*page_size`
groups, it never exceeds `page_size` groups, `has_next` holds exactly when
`page * page_size` is strictly below the total group count, and a page
past the end is empty with `has_next = false`. -/
theorem paginate_spec (t : ResultTable) (page size : Nat)
    (hpage : 1 ≤ page) (hsize : 1 ≤ size) :
    (group_by_domain_and_paginate t page size).paginated_channels =
      ((group_by_domain_and_paginate t page size).channel_summary.drop
        ((page - 1) * size)).take size ∧
    (group_by_domain_and_paginate t page size).paginated_channels.length ≤ size ∧
    ((group_by_domain_and_paginate t page size).has_next = true ↔
      page * size < (group_by_domain_and_paginate t page size).total_domains) ∧
    ((group_by_domain_and_paginate t page size).total_domains ≤ (page - 1) * size →
      (group_by_domain_and_paginate t page size).paginated_channels = [] ∧
      (group_by_domain_and_paginate t page size).has_next = false) := by
  have hmul : (page - 1) * size + size = page * size := by
    have h1 : page - 1 + 1 = page := Nat.succ_pred_eq_of_pos hpage
    calc (page - 1) * size + size = (page - 1 + 1) * size := by ring
    _ = page * size := by rw [h1]
  refine ⟨rfl, ?_, ?_, ?_⟩
  · simp only [group_by_domain_and_paginate, List.length_take]
    exact min_le_left _ _
  · simp only [group_by_domain_and_paginate, hmul, decide_eq_true_eq]
  · intro hpast
    simp only [group_by_domain_and_paginate] at hpast ⊢
    constructor
    · rw [List.drop_eq_nil_of_le hpast, List.take_nil]
    · simp only [decide_eq_false_iff_not, Nat.not_lt]
      omega

/-- Witness for C5 at the claim's 23-group example (channels `a`..`w`,
`page_size = 5`): the general theorem applied at `page = 5`, plus the
concrete page contents the claim describes on pages 1, 5 and 6. -/
theorem paginate_spec_witness :
    (1 ≤ 5 ∧
      ((group_by_domain_and_paginate t23C5 5 5).paginated_channels =
        ((group_by_domain_and_paginate t23C5 5 5).channel_summary.drop
          ((5 - 1) * 5)).take 5 ∧
      (group_by_domain_and_paginate t23C5 5 5).paginated_channels.length ≤ 5 ∧
      ((group_by_domain_and_paginate t23C5 5 5).has_next = true ↔
        5 * 5 < (group_by_domain_and_paginate t23C5 5 5).total_domains) ∧
      ((group_by_domain_and_paginate t23C5 5 5).total_domains ≤ (5 - 1) * 5 →
        (group_by_domain_and_paginate t23C5 5 5).paginated_channels = [] ∧
        (group_by_domain_and_paginate t23C5 5 5).has_next = false))) ∧
    (group_by_domain_and_paginate t23C5 1 5).paginated_channels.length = 5 ∧
    (group_by_domain_and_paginate t23C5 1 5).has_next = true ∧
    (group_by_domain_and_paginate t23C5 5 5).paginated_channels.length = 3 ∧
    (group_by_domain_and_paginate t23C5 5 5).has_next = false ∧
    (group_by_domain_and_paginate t23C5 6 5).paginated_channels = [] ∧
    (group_by_domain_and_paginate t23C5 6 5).has_next = false ∧
    (group_by_domain_and_paginate t23C5 1 5).total_domains = 23 :=
  ⟨⟨by decide, paginate_spec t23C5 5 5 (by decide) (by decide)⟩,
    by decide, by decide, by decide, by decide, by decide, by decide, by decide⟩

/-- C2 counterexample: with the `Business Id` column absent from the main
table, the internal computation raises (a `KeyError` naming the column),
but `merge_data` itself returns `None` — no error of any kind, `DataError`
included, reaches the caller. -/
theorem merge_data_missing_column_swallowed :
    merge_data_inner mainNoKeyC2 mainNoKeyC2 sheetAllColsC2
        "short_video" "none" "none" = .error "KeyError: Business Id" ∧
    merge_data mainNoKeyC2 mainNoKeyC2 sheetAllColsC2
        "short_video" "none" "none" = none :=
  ⟨rfl, rfl⟩

/-- C2 amended: whenever a required column is absent from the selected
main table or the reference sheet, the inner computation of `merge_data`
fails with an error naming the missing column, and the surrounding
`try/except` converts it to a `None` result for the caller (the route
handler turns `None` into a generic error response); no typed `DataError`
propagates. -/
theorem merge_data_returns_none_on_missing_column
    (video live : MainDF) (sheet : SheetDF) (case_type industry_filter country : String)
    (h : required_column_missing
      (if case_type == "short_video" then video else live) sheet = true) :
    (∃ e, merge_data_inner video live sheet case_type industry_filter country =
      Except.error e) ∧
    merge_data video live sheet case_type industry_filter country = none := by
  unfold merge_data merge_data_inner
  unfold required_column_missing at h
  set m := if case_type == "short_video" then video else live with hmdef
  cases h1 : m.hasBusinessId <;> cases h2 : sheet.hasBusinessId <;>
    cases h3 : sheet.hasAccountName <;> cases h4 : sheet.hasIndustry <;>
    cases h5 : sheet.hasTerritory <;>
    simp [h1, h2, h3, h4, h5] at h ⊢

/-- Witness for C2 amended, at the concrete missing-column input of the
counterexample. -/
theorem merge_data_returns_none_on_missing_column_witness :
    required_column_missing
      (if ("short_video" == "short_video") then mainNoKeyC2 else mainNoKeyC2)
      sheetAllColsC2 = true ∧
    ((∃ e, merge_data_inner mainNoKeyC2 mainNoKeyC2 sheetAllColsC2
        "short_video" "none" "none" = Except.error e) ∧
      merge_data mainNoKeyC2 mainNoKeyC2 sheetAllColsC2
        "short_video" "none" "none" = none) :=
  ⟨by decide,
    merge_data_returns_none_on_missing_column mainNoKeyC2 mainNoKeyC2 sheetAllColsC2
      "short_video" "none" "none" (by decide)⟩

/-- C1: the merge is a left outer join on the normalized business key:
every performance row contributes at least one merged row carrying its
fields, and a performance row whose normalized key matches no reference
row contributes a row whose enrichment fields (`Account` fields, industry,
territory/region, channel name) are all null. -/
theorem merge_left_outer (perf : List PerfRow) (ref : List RefRow)
    (p : PerfRow) (hp : p ∈ perf) :
    (∃ m ∈ mergeLeft perf ref,
      m.businessId = normalize_key p.businessId ∧ m.pageUrl = p.pageUrl ∧
      m.videoViews = p.videoViews) ∧
    ((∀ r ∈ ref, keyEq (normalize_key p.businessId) (normalize_key r.businessId) = false) →
      ∃ m ∈ mergeLeft perf ref,
        m.businessId = normalize_key p.businessId ∧ m.pageUrl = p.pageUrl ∧
        m.videoViews = p.videoViews ∧ m.accountName = none ∧ m.industry = none ∧
        m.territory = none ∧ m.channelName = none) := by
  have hsub : ∀ m, m ∈ mergeLeftRow ref p → m ∈ mergeLeft perf ref := by
    intro m hm
    exact List.mem_flatMap.mpr ⟨p, hp, hm⟩
  have hrow : mergeLeftRow ref p =
      (if (ref.filter
          (fun r => keyEq (normalize_key p.businessId) (normalize_key r.businessId))).isEmpty then
        [⟨normalize_key p.businessId, p.pageUrl, p.videoViews, none, none, none, none⟩]
      else
        (ref.filter
          (fun r => keyEq (normalize_key p.businessId) (normalize_key r.businessId))).map
          (fun r => ⟨normalize_key p.businessId, p.pageUrl, p.videoViews,
            some r.accountName, some r.industry, some r.territory, some r.channelName⟩)) := rfl
  constructor
  · cases hhits : (ref.filter
      (fun r => keyEq (normalize_key p.businessId) (normalize_key r.businessId))) with
    | nil =>
        refine ⟨⟨normalize_key p.businessId, p.pageUrl, p.videoViews,
          none, none, none, none⟩, hsub _ ?_, rfl, rfl, rfl⟩
        rw [hrow, hhits]
        simp
    | cons r rest =>
        refine ⟨⟨normalize_key p.businessId, p.pageUrl, p.videoViews,
          some r.accountName, some r.industry, some r.territory, some r.channelName⟩,
          hsub _ ?_, rfl, rfl, rfl⟩
        rw [hrow, hhits]
        simp only [List.isEmpty_cons, Bool.false_eq_true, if_false]
        exact List.mem_map_of_mem _ (List.mem_cons_self r rest)
  · intro hnone
    have hhits : (ref.filter
        (fun r => keyEq (normalize_key p.businessId) (normalize_key r.businessId))) = [] := by
      rw [List.filter_eq_nil_iff]
      intro r hr
      simp [hnone r hr]
    refine ⟨⟨normalize_key p.businessId, p.pageUrl, p.videoViews,
      none, none, none, none⟩, hsub _ ?_, rfl, rfl, rfl, rfl, rfl, rfl, rfl⟩
    rw [hrow, hhits]
    simp

/-- Witness for C1 at the claim's example: performance keys `{1,2,3}`
against reference keys `{2,3}`; the merged result has exactly 3 rows and
the key-1 row is retained with all-null enrichment fields. -/
theorem merge_left_outer_witness :
    (⟨.vint 1, "u1", 10⟩ : PerfRow) ∈ perfC1 ∧
    ((∃ m ∈ mergeLeft perfC1 refC1,
      m.businessId = normalize_key (.vint 1) ∧ m.pageUrl = "u1" ∧ m.videoViews = 10) ∧
    ((∀ r ∈ refC1, keyEq (normalize_key (.vint 1)) (normalize_key r.businessId) = false) →
      ∃ m ∈ mergeLeft perfC1 refC1,
        m.businessId = normalize_key (.vint 1) ∧ m.pageUrl = "u1" ∧
        m.videoViews = 10 ∧ m.accountName = none ∧ m.industry = none ∧
        m.territory = none ∧ m.channelName = none)) ∧
    (mergeLeft perfC1 refC1).length = 3 :=
  ⟨by decide, merge_left_outer perfC1 refC1 ⟨.vint 1, "u1", 10⟩ (by decide), by decide⟩

/-- Membership through `insertDescViews`. -/
theorem mem_insertDescViews {x g : ChannelGroup} {l : List ChannelGroup} :
    x ∈ insertDescViews g l ↔ x = g ∨ x ∈ l := by
  induction l with
  | nil => simp [insertDescViews]
  | cons h t ih =>
      rw [insertDescViews]
      by_cases hc : h.totalViews ≤ g.totalViews
      · rw [if_pos hc, List.mem_cons]
      · rw [if_neg hc, List.mem_cons, ih, List.mem_cons]
        tauto

/-- `sortDescViews` permutes: same members. -/
theorem mem_sortDescViews {x : ChannelGroup} {l : List ChannelGroup} :
    x ∈ sortDescViews l ↔ x ∈ l := by
  induction l with
  | nil => simp [sortDescViews]
  | cons g t ih =>
      rw [sortDescViews, mem_insertDescViews, ih, List.mem_cons]

/-- Membership through `insertAsc`. -/
theorem mem_insertAsc {x s : String} {l : List String} :
    x ∈ insertAsc s l ↔ x = s ∨ x ∈ l := by
  induction l with
  | nil => simp [insertAsc]
  | cons t ts ih =>
      rw [insertAsc]
      by_cases hc : strLtB s t = true
      · rw [if_pos hc, List.mem_cons]
      · rw [if_neg hc, List.mem_cons, ih, List.mem_cons]
        tauto

/-- `sortAsc` permutes: same members. -/
theorem mem_sortAsc {x : String} {l : List String} :
    x ∈ sortAsc l ↔ x ∈ l := by
  induction l with
  | nil => simp [sortAsc]
  | cons s ss ih =>
      rw [sortAsc, mem_insertAsc, ih, List.mem_cons]

/-- The distinct-key accumulator of `encounterKeys` collects exactly the
key values occurring in the rows. -/
theorem mem_encounterKeys {key : ResultRow → String} {rows : List ResultRow} {k : String} :
    k ∈ encounterKeys key rows ↔ ∃ r ∈ rows, key r = k := by
  have main : ∀ (rs : List ResultRow) (acc : List String),
      (k ∈ rs.foldl (fun acc r =>
          if acc.contains (key r) then acc else acc ++ [key r]) acc ↔
        k ∈ acc ∨ ∃ r ∈ rs, key r = k) := by
    intro rs
    induction rs with
    | nil => intro acc; simp
    | cons r rest ih =>
        intro acc
        rw [List.foldl_cons, ih, List.exists_mem_cons_iff]
        by_cases hc : acc.contains (key r) = true
        · rw [if_pos hc]
          have hk : key r ∈ acc := by
            rw [← List.elem_iff]
            exact hc
          constructor
          · rintro (h | h)
            · exact Or.inl h
            · exact Or.inr (Or.inr h)
          · rintro (h | h | h)
            · exact Or.inl h
            · exact Or.inl (h ▸ hk)
            · exact Or.inr h
        · rw [if_neg hc]
          simp only [List.mem_append, List.mem_singleton]
          constructor
          · rintro ((h | h) | h)
            · exact Or.inl h
            · exact Or.inr (Or.inl h.symm)
            · exact Or.inr (Or.inr h)
          · rintro (h | h | h)
            · exact Or.inl (Or.inl h)
            · exact Or.inl (Or.inr h.symm)
            · exact Or.inr h
  rw [encounterKeys, main]
  simp

/-- C3 amended: the grouping-key choice is all-or-nothing per invocation
and is determined by column presence, not by record values: when the
channel-name column exists, the summary's group keys are exactly the
rows' channel names (a record with a blank channel name lands in a
`""`-keyed group, it does not trigger hostname grouping); only when the
column is absent are the group keys exactly the rows' hostnames. -/
theorem grouping_key_by_column_presence (t : ResultTable) (page size : Nat)
    (k : String) :
    (∃ g ∈ (group_by_domain_and_paginate t page size).channel_summary, g.key = k) ↔
      ∃ r ∈ t.rows, (if t.hasChannelCol then r.channelName else r.domain) = k := by
  have hproj : (group_by_domain_and_paginate t page size).channel_summary =
      sortDescViews ((sortAsc (encounterKeys (group_column t) t.rows)).map
        (mkGroup (group_column t) t.rows)) := rfl
  rw [hproj]
  constructor
  · rintro ⟨g, hg, rfl⟩
    rw [mem_sortDescViews] at hg
    rcases List.mem_map.mp hg with ⟨k', hk', rfl⟩
    rw [mem_sortAsc, mem_encounterKeys] at hk'
    rcases hk' with ⟨r, hr, hkey⟩
    exact ⟨r, hr, hkey⟩
  · rintro ⟨r, hr, hkey⟩
    refine ⟨mkGroup (group_column t) t.rows k, ?_, rfl⟩
    rw [mem_sortDescViews]
    apply List.mem_map_of_mem
    rw [mem_sortAsc, mem_encounterKeys]
    exact ⟨r, hr, hkey⟩

/-- C3 counterexample: `tBlankC3` has the channel column and one record
with a blank channel name; the claim predicts hostname grouping for the
whole set (keys `x.com`, `y.com`), but the code groups the entire set by
channel name, producing keys `Chan` and `""` and no `x.com` group. -/
theorem grouping_blank_channel_counterexample :
    tBlankC3.hasChannelCol = true ∧
    (∃ r ∈ tBlankC3.rows, r.channelName = "") ∧
    (group_by_domain_and_paginate tBlankC3 1 5).channel_summary.map
      (fun g => g.key) = ["Chan", ""] ∧
    ¬ ∃ g ∈ (group_by_domain_and_paginate tBlankC3 1 5).channel_summary,
      g.key = "x.com" := by
  decide

/-- Inserting a group into a views-descending list keeps it
views-descending. -/
theorem insertDescViews_views_pairwise {g : ChannelGroup} {l : List ChannelGroup}
    (hl : l.Pairwise (fun a b => b.totalViews ≤ a.totalViews)) :
    (insertDescViews g l).Pairwise (fun a b => b.totalViews ≤ a.totalViews) := by
  induction l with
  | nil => simp [insertDescViews]
  | cons h t ih =>
      rw [insertDescViews]
      by_cases hc : h.totalViews ≤ g.totalViews
      · rw [if_pos hc]
        refine List.Pairwise.cons ?_ hl
        intro x hx
        rcases List.mem_cons.mp hx with rfl | hx'
        · exact hc
        · exact le_trans ((List.pairwise_cons.mp hl).1 x hx') hc
      · rw [if_neg hc]
        push_neg at hc
        refine List.Pairwise.cons ?_ (ih (List.pairwise_cons.mp hl).2)
        intro x hx
        rcases mem_insertDescViews.mp hx with rfl | hx'
        · exact le_of_lt hc
        · exact (List.pairwise_cons.mp hl).1 x hx'

/-- The ranking sort's output is views-descending, whatever the input
order. -/
theorem sortDescViews_views_pairwise (l : List ChannelGroup) :
    (sortDescViews l).Pairwise (fun a b => b.totalViews ≤ a.totalViews) := by
  induction l with
  | nil => simp [sortDescViews]
  | cons g t ih =>
      rw [sortDescViews]
      exact insertDescViews_views_pairwise ih

/-- C4 amended: the ranked group list is sorted by `total_views`
descending. The relative order of groups with equal `total_views` is not
part of the program's contract — `sort_values`' default `quicksort` may
permute equal elements once the group count exceeds numpy's 16-element
insertion-sort threshold — and in particular it is not original row
encounter order: `groupby(sort=True)` has already re-ordered the group
keys alphabetically before the ranking sort (see the counterexample). -/
theorem ranking_views_desc (t : ResultTable) (page size : Nat) :
    ((group_by_domain_and_paginate t page size).channel_summary).Pairwise
      (fun a b => b.totalViews ≤ a.totalViews) := by
  have hproj : (group_by_domain_and_paginate t page size).channel_summary =
      sortDescViews ((sortAsc (encounterKeys (group_column t) t.rows)).map
        (mkGroup (group_column t) t.rows)) := rfl
  rw [hproj]
  exact sortDescViews_views_pairwise _

/-- C4 counterexample: two channels with equal total views encountered as
`B` then `A`; the claim predicts ranking order `[B, A]` (encounter order),
but the code emits `[A, B]` because `groupby(sort=True)` orders the group
keys alphabetically before the ranking sort. -/
theorem ranking_tie_counterexample :
    encounterKeys (group_column tTieC4) tTieC4.rows = ["B", "A"] ∧
    (group_by_domain_and_paginate tTieC4 1 5).channel_summary.map
      (fun g => (g.key, g.totalViews)) = [("A", 10), ("B", 10)] ∧
    (group_by_domain_and_paginate tTieC4 1 5).channel_summary.map
      (fun g => (g.key, g.totalViews)) ≠ [("B", 10), ("A", 10)] := by
  decide

/-- C7: the classifier tries its rules in a fixed order and returns the
first match. For any HTML document in which the `mode="grid"` rule
matches while neither of the two rules ordered before it (`style`
containing `thumbnail`; `thumbnail_style="dynamic"`) matches — i.e. the
embed-feed marker's only distinguishing attribute is `mode="grid"` — the
classifier returns `"Grid"`, not the generic bare-marker fallback. -/
theorem detect_grid_precedence (html : String)
    (hGrid : searchP pGrid (lowerChars html) = true)
    (h1 : searchP pHorizontalCarousel (lowerChars html) = false)
    (h2 : searchP pDynamicCarousel (lowerChars html) = false) :
    detect_firework_format html = "Grid" := by
  have hne : html.isEmpty = false := by
    cases he : html.isEmpty
    · rfl
    · exfalso
      have hempty : html = "" := (String.isEmpty_iff html).mp he
      rw [hempty] at hGrid
      exact absurd hGrid (by decide)
  unfold detect_firework_format
  rw [hne]
  simp only [Bool.false_eq_true, if_false, format_patterns, List.find?]
  rw [h1, h2, hGrid]

/-- Witness for C7 at a concrete fragment whose marker tag carries only
the `mode="grid"` attribute: the two higher-priority rules do not match,
and the classifier returns `"Grid"`. -/
theorem detect_grid_precedence_witness :
    searchP pGrid (lowerChars "<fw-embed-feed mode=\"grid\">") = true ∧
    searchP pHorizontalCarousel (lowerChars "<fw-embed-feed mode=\"grid\">") = false ∧
    searchP pDynamicCarousel (lowerChars "<fw-embed-feed mode=\"grid\">") = false ∧
    detect_firework_format "<fw-embed-feed mode=\"grid\">" = "Grid" :=
  ⟨by decide, by decide, by decide,
    detect_grid_precedence "<fw-embed-feed mode=\"grid\">" (by decide) (by decide) (by decide)⟩
